import Mathlib

set_option maxRecDepth 16384

/-!
Verification of the voicechat backend (`backend/server.py`, `backend/weather_tool.py`).

The Python source is shallowly embedded: JSON values are modelled by the
inductive `JValue` (integers only; the repository never produces or consumes
fractional JSON numbers, so `json` floats are outside the model and the
embedded decoder reports them as errors), Python dicts by association lists,
`datetime` instants by integer second counts, and the fallible
`json.loads` by an executable decoder returning `Except`.  WebSocket sends
are modelled as lists of frames returned by the pure step functions, in the
order the source performs them.
-/

namespace VoiceChat

/-- A JSON value as produced by Python's `json.loads` on the frames this
server handles.  Numbers are restricted to integers (see module comment). -/
inductive JValue where
  | null : JValue
  | bool : Bool → JValue
  | num : Int → JValue
  | str : String → JValue
  | arr : List JValue → JValue
  | obj : List (String × JValue) → JValue

/-- First binding of `k` in an association list (Python `dict` lookup;
maps built by `assocSet` have unique keys, so "first" is "the" binding). -/
def assocGet {α : Type} (k : String) : List (String × α) → Option α
  | [] => none
  | (k2, v) :: rest => if k2 = k then some v else assocGet k rest

/-- Python `d[k] = v`: replace the binding in place, else append. -/
def assocSet {α : Type} (k : String) (v : α) : List (String × α) → List (String × α)
  | [] => [(k, v)]
  | (k2, v2) :: rest => if k2 = k then (k, v) :: rest else (k2, v2) :: assocSet k v rest

/-- Python `del d[k]` (removes the key's binding; keys are unique). -/
def assocDel {α : Type} (k : String) : List (String × α) → List (String × α)
  | [] => []
  | kv :: rest => if kv.fst = k then assocDel k rest else kv :: assocDel k rest

/-- Python truthiness of a JSON-decoded value (`bool(v)`). -/
def truthy : JValue → Bool
  | .null => false
  | .bool b => b
  | .num n => n ≠ 0
  | .str s => s ≠ ""
  | .arr xs => !xs.isEmpty
  | .obj fs => !fs.isEmpty

/-- Python `type(v).__name__` for a JSON-decoded value. -/
def pyTypeName : JValue → String
  | .null => "NoneType"
  | .bool _ => "bool"
  | .num _ => "int"
  | .str _ => "str"
  | .arr _ => "list"
  | .obj _ => "dict"

/-- Hex digit (lower case), as used by `json.dumps` unicode escapes. -/
def hexDigit (n : Nat) : Char :=
  if n < 10 then Char.ofNat (48 + n) else Char.ofNat (87 + n)

/-- Four-digit lower-case hex, as in `\uXXXX` escapes. -/
def hex4 (n : Nat) : String :=
  String.mk [hexDigit (n / 4096 % 16), hexDigit (n / 256 % 16),
             hexDigit (n / 16 % 16), hexDigit (n % 16)]

/-- One character of a JSON string literal under `json.dumps` defaults
(`ensure_ascii=True`): short escapes, `\u` escapes for controls and
non-ASCII (surrogate pairs above the BMP), else the character itself. -/
def jsonEscapeChar (c : Char) : String :=
  if c = '"' then "\\\""
  else if c = '\\' then "\\\\"
  else if c = '\n' then "\\n"
  else if c = '\r' then "\\r"
  else if c = '\t' then "\\t"
  else if c = Char.ofNat 8 then "\\b"
  else if c = Char.ofNat 12 then "\\f"
  else if c.toNat < 32 then "\\u" ++ hex4 c.toNat
  else if c.toNat < 127 then String.singleton c
  else if c.toNat < 65536 then "\\u" ++ hex4 c.toNat
  else
    let n := c.toNat - 65536
    "\\u" ++ hex4 (55296 + n / 1024) ++ "\\u" ++ hex4 (56320 + n % 1024)

/-- Body of a JSON string literal under `json.dumps`. -/
def jsonEscape (s : String) : String :=
  String.join (s.data.map jsonEscapeChar)

/-- `", ".join l` -/
def joinComma : List String → String
  | [] => ""
  | [s] => s
  | s :: rest => s ++ ", " ++ joinComma rest

mutual

/-- Python `json.dumps(v)` with default options (separators `", "` and
`": "`, `ensure_ascii=True`). -/
def dumps : JValue → String
  | .null => "null"
  | .bool true => "true"
  | .bool false => "false"
  | .num n => toString n
  | .str s => "\"" ++ jsonEscape s ++ "\""
  | .arr xs => "[" ++ joinComma (dumpsList xs) ++ "]"
  | .obj fs => "\x7b" ++ joinComma (dumpsFields fs) ++ "\x7d"

def dumpsList : List JValue → List String
  | [] => []
  | v :: rest => dumps v :: dumpsList rest

def dumpsFields : List (String × JValue) → List String
  | [] => []
  | (k, v) :: rest => ("\"" ++ jsonEscape k ++ "\": " ++ dumps v) :: dumpsFields rest

end

/-! ### `json.loads`

An executable decoder mirroring CPython's `json.loads` on the inputs this
server can see.  Error messages follow CPython's `JSONDecodeError` format
`"<what>: line L column C (char P)"`.  Out-of-model inputs (fractional or
exponent numbers, `NaN`/`Infinity`, lone surrogate escapes — all absent from
this repository's traffic) are reported as errors whose text starts with
`"model:"`. -/

/-- JSON whitespace (the characters CPython's decoder skips). -/
def isJsonWs (c : Char) : Bool :=
  c = ' ' || c = '\t' || c = '\n' || c = '\r'

/-- Skip whitespace, tracking the absolute position. -/
def skipWs : List Char → Nat → List Char × Nat
  | [], p => ([], p)
  | c :: cs, p => if isJsonWs c then skipWs cs (p + 1) else (c :: cs, p)

/-- Value of a hex digit, if any. -/
def hexVal (c : Char) : Option Nat :=
  if '0' ≤ c ∧ c ≤ '9' then some (c.toNat - 48)
  else if 'a' ≤ c ∧ c ≤ 'f' then some (c.toNat - 87)
  else if 'A' ≤ c ∧ c ≤ 'F' then some (c.toNat - 55)
  else none

/-- Decode the body of a JSON string literal (opening quote already
consumed).  `pos` is the current absolute position, `start` the position of
the opening quote (used by CPython's "Unterminated string" error). -/
def lexString : Nat → List Char → Nat → Nat →
    Except (String × Nat) (String × List Char × Nat)
  | 0, _, pos, _ => .error ("model: fuel exhausted", pos)
  | Nat.succ fuel, cs, pos, start =>
    match cs with
    | [] => .error ("Unterminated string starting at", start)
    | '"' :: rest => .ok ("", rest, pos + 1)
    | '\\' :: rest =>
      let fromEsc := fun (esc : Char) (consumed : Nat) (r : List Char) =>
        match lexString fuel r (pos + consumed) start with
        | .ok (s, cs2, p2) => .ok (String.singleton esc ++ s, cs2, p2)
        | .error e => .error e
      match rest with
      | [] => .error ("Unterminated string starting at", start)
      | '"' :: r => fromEsc '"' 2 r
      | '\\' :: r => fromEsc '\\' 2 r
      | '/' :: r => fromEsc '/' 2 r
      | 'b' :: r => fromEsc (Char.ofNat 8) 2 r
      | 'f' :: r => fromEsc (Char.ofNat 12) 2 r
      | 'n' :: r => fromEsc '\n' 2 r
      | 'r' :: r => fromEsc '\r' 2 r
      | 't' :: r => fromEsc '\t' 2 r
      | 'u' :: r =>
        (match r with
         | h1 :: h2 :: h3 :: h4 :: r2 =>
           (match hexVal h1, hexVal h2, hexVal h3, hexVal h4 with
            | some a, some b, some c, some d =>
              let n := a * 4096 + b * 256 + c * 16 + d
              if 55296 ≤ n ∧ n < 56320 then
                -- high surrogate: CPython pairs it with a following \uDC00-\uDFFF
                (match r2 with
                 | '\\' :: 'u' :: g1 :: g2 :: g3 :: g4 :: r3 =>
                   (match hexVal g1, hexVal g2, hexVal g3, hexVal g4 with
                    | some a2, some b2, some c2, some d2 =>
                      let m := a2 * 4096 + b2 * 256 + c2 * 16 + d2
                      if 56320 ≤ m ∧ m < 57344 then
                        fromEsc (Char.ofNat (65536 + (n - 55296) * 1024 + (m - 56320))) 12 r3
                      else .error ("model: lone surrogate escape unsupported", pos)
                    | _, _, _, _ => .error ("model: lone surrogate escape unsupported", pos))
                 | _ => .error ("model: lone surrogate escape unsupported", pos))
              else if 56320 ≤ n ∧ n < 57344 then
                .error ("model: lone surrogate escape unsupported", pos)
              else fromEsc (Char.ofNat n) 6 r2
            | _, _, _, _ => .error ("Invalid \\uXXXX escape", pos + 2))
         | _ => .error ("Invalid \\uXXXX escape", pos + 2))
      | _ :: _ => .error ("Invalid \\escape", pos + 1)
    | c :: rest =>
      if c.toNat < 32 then .error ("Invalid control character at", pos)
      else
        match lexString fuel rest (pos + 1) start with
        | .ok (s, cs2, p2) => .ok (String.singleton c ++ s, cs2, p2)
        | .error e => .error e

/-- Consume a run of decimal digits. -/
def takeDigits : List Char → Nat → (List Char × List Char × Nat)
  | [], p => ([], [], p)
  | c :: cs, p =>
    if c.isDigit then
      let (ds, rest, p2) := takeDigits cs (p + 1)
      (c :: ds, rest, p2)
    else ([], c :: cs, p)

/-- Natural number denoted by a digit run. -/
def digitsToNat : List Char → Nat
  | [] => 0
  | ds => ds.foldl (fun acc c => acc * 10 + (c.toNat - 48)) 0

/-- Decode a JSON number per CPython's `NUMBER_RE` at a position known to
start with `-` or a digit.  Integers only: a fractional part or exponent is
out of model (reported as a `model:` error rather than a float). -/
def lexNumber (cs : List Char) (pos : Nat) :
    Except (String × Nat) (Int × List Char × Nat) :=
  let (neg, cs1, p1) : Bool × List Char × Nat :=
    match cs with
    | '-' :: rest => (true, rest, pos + 1)
    | _ => (false, cs, pos)
  match cs1 with
  | '0' :: rest =>
    -- the integer part of the number grammar is "0" or [1-9][0-9]*
    checkTail ((0 : Int)) rest (p1 + 1)
  | c :: rest =>
    if c.isDigit then
      let (ds, rest2, p2) := takeDigits rest (p1 + 1)
      let n : Int := Int.ofNat (digitsToNat (c :: ds))
      checkTail (if neg then -n else n) rest2 p2
    else .error ("Expecting value", pos)
  | [] => .error ("Expecting value", pos)
where
  /-- Reject the out-of-model fractional/exponent continuation. -/
  checkTail (n : Int) (rest : List Char) (p : Nat) :
      Except (String × Nat) (Int × List Char × Nat) :=
    match rest with
    | '.' :: c :: _ =>
      if c.isDigit then .error ("model: non-integer JSON numbers unsupported", p)
      else .ok (n, rest, p)
    | 'e' :: c :: _ =>
      if c.isDigit ∨ c = '+' ∨ c = '-' then
        .error ("model: non-integer JSON numbers unsupported", p)
      else .ok (n, rest, p)
    | 'E' :: c :: _ =>
      if c.isDigit ∨ c = '+' ∨ c = '-' then
        .error ("model: non-integer JSON numbers unsupported", p)
      else .ok (n, rest, p)
    | _ => .ok (n, rest, p)

/-- Check that `cs` starts with the given literal characters. -/
def startsWithChars : List Char → List Char → Bool
  | [], _ => true
  | _ :: _, [] => false
  | l :: ls, c :: cs => l = c && startsWithChars ls cs

mutual

/-- Decode one JSON value (CPython `scan_once`), skipping leading
whitespace.  Fuel decreases on every nested call; `loads` supplies more
fuel than any input can consume. -/
def parseVal (fuel0 : Nat) (cs00 : List Char) (pos00 : Nat) :
    Except (String × Nat) (JValue × List Char × Nat) :=
  match fuel0, cs00, pos00 with
  | 0, _, pos => .error ("model: fuel exhausted", pos)
  | Nat.succ fuel, cs0, pos0 =>
    match skipWs cs0 pos0 with
    | ([], p) => .error ("Expecting value", p)
    | (c :: rest, p) =>
      if c = '\x7b' then parseObj fuel rest (p + 1)
      else if c = '[' then parseArr fuel rest (p + 1)
      else if c = '"' then
        match lexString (rest.length + 1) rest (p + 1) p with
        | .ok (s, cs2, p2) => .ok (.str s, cs2, p2)
        | .error e => .error e
      else if c = 't' then
        if startsWithChars ['r', 'u', 'e'] rest then .ok (.bool true, rest.drop 3, p + 4)
        else .error ("Expecting value", p)
      else if c = 'f' then
        if startsWithChars ['a', 'l', 's', 'e'] rest then .ok (.bool false, rest.drop 4, p + 5)
        else .error ("Expecting value", p)
      else if c = 'n' then
        if startsWithChars ['u', 'l', 'l'] rest then .ok (.null, rest.drop 3, p + 4)
        else .error ("Expecting value", p)
      else if c = 'N' then
        -- NaN: a float in CPython, out of model
        if startsWithChars ['a', 'N'] rest then
          .error ("model: non-integer JSON numbers unsupported", p)
        else .error ("Expecting value", p)
      else if c = 'I' then
        if startsWithChars ['n', 'f', 'i', 'n', 'i', 't', 'y'] rest then
          .error ("model: non-integer JSON numbers unsupported", p)
        else .error ("Expecting value", p)
      else if c = '-' ∧ startsWithChars ['I'] rest then
        if startsWithChars ['I', 'n', 'f', 'i', 'n', 'i', 't', 'y'] rest then
          .error ("model: non-integer JSON numbers unsupported", p)
        else .error ("Expecting value", p)
      else if c = '-' ∨ c.isDigit then
        match lexNumber (c :: rest) p with
        | .ok (n, cs2, p2) => .ok (.num n, cs2, p2)
        | .error e => .error e
      else .error ("Expecting value", p)

termination_by structural fuel0

/-- Decode an object body (the `\x7b` already consumed). -/
def parseObj (fuel0 : Nat) (cs00 : List Char) (pos00 : Nat) :
    Except (String × Nat) (JValue × List Char × Nat) :=
  match fuel0, cs00, pos00 with
  | 0, _, pos => .error ("model: fuel exhausted", pos)
  | Nat.succ fuel, cs0, pos0 =>
    match skipWs cs0 pos0 with
    | ('\x7d' :: rest, p) => .ok (.obj [], rest, p + 1)
    | (cs, p) => parseMembers fuel [] cs p

termination_by structural fuel0

/-- Decode object members starting at a (whitespace-free) position where a
key string must appear.  Duplicate keys: the later binding wins, at the
first key's position, as for a CPython `dict`. -/
def parseMembers (fuel0 : Nat) (acc0 : List (String × JValue)) (cs00 : List Char) (pos00 : Nat) :
    Except (String × Nat) (JValue × List Char × Nat) :=
  match fuel0, acc0, cs00, pos00 with
  | 0, _, _, pos => .error ("model: fuel exhausted", pos)
  | Nat.succ fuel, acc, cs0, pos0 =>
    match cs0 with
    | '"' :: rest =>
      (match lexString (rest.length + 1) rest (pos0 + 1) pos0 with
       | .error e => .error e
       | .ok (key, cs1, p1) =>
         match skipWs cs1 p1 with
         | (':' :: cs2, p2) =>
           (match parseVal fuel cs2 (p2 + 1) with
            | .error e => .error e
            | .ok (v, cs3, p3) =>
              let acc2 := assocSet key v acc
              match skipWs cs3 p3 with
              | (',' :: cs4, p4) =>
                (match skipWs cs4 (p4 + 1) with
                 | (cs5, p5) => parseMembers fuel acc2 cs5 p5)
              | ('\x7d' :: cs4, p4) => .ok (.obj acc2, cs4, p4 + 1)
              | (_, p4) => .error ("Expecting ',' delimiter", p4))
         | (_, p2) => .error ("Expecting ':' delimiter", p2))
    | _ => .error ("Expecting property name enclosed in double quotes", pos0)

termination_by structural fuel0

/-- Decode an array body (the `[` already consumed). -/
def parseArr (fuel0 : Nat) (cs00 : List Char) (pos00 : Nat) :
    Except (String × Nat) (JValue × List Char × Nat) :=
  match fuel0, cs00, pos00 with
  | 0, _, pos => .error ("model: fuel exhausted", pos)
  | Nat.succ fuel, cs0, pos0 =>
    match skipWs cs0 pos0 with
    | (']' :: rest, p) => .ok (.arr [], rest, p + 1)
    | (cs, p) => parseElems fuel [] cs p

termination_by structural fuel0

/-- Decode array elements. -/
def parseElems (fuel0 : Nat) (acc0 : List JValue) (cs00 : List Char) (pos00 : Nat) :
    Except (String × Nat) (JValue × List Char × Nat) :=
  match fuel0, acc0, cs00, pos00 with
  | 0, _, _, pos => .error ("model: fuel exhausted", pos)
  | Nat.succ fuel, acc, cs0, pos0 =>
    match parseVal fuel cs0 pos0 with
    | .error e => .error e
    | .ok (v, cs1, p1) =>
      match skipWs cs1 p1 with
      | (',' :: cs2, p2) => parseElems fuel (acc ++ [v]) cs2 (p2 + 1)
      | (']' :: cs2, p2) => .ok (.arr (acc ++ [v]), cs2, p2 + 1)
      | (_, p2) => .error ("Expecting ',' delimiter", p2)
termination_by structural fuel0

end

/-- CPython's `line L column C (char P)` error location. -/
def formatLineCol (doc : List Char) (pos : Nat) : String :=
  let pre := doc.take pos
  let line := pre.count '\n' + 1
  let col := if '\n' ∈ pre then pre.reverse.indexOf '\n' + 1 else pos + 1
  "line " ++ toString line ++ " column " ++ toString col ++
    " (char " ++ toString pos ++ ")"

/-- Python `json.loads` on the modelled value domain.  `.error` carries
`str(e)` of the raised `JSONDecodeError`. -/
def loads (s : String) : Except String JValue :=
  let cs := s.data
  match parseVal (cs.length + 4) cs 0 with
  | .error (msg, pos) => .error (msg ++ ": " ++ formatLineCol cs pos)
  | .ok (v, rest, p) =>
    match skipWs rest p with
    | ([], _) => .ok v
    | (_, p2) => .error ("Extra data: " ++ formatLineCol cs p2)

/-! ### Python string conversion

`str(v)` / `repr(v)` for decoded JSON values, needed because the source
interpolates such values into f-strings (`f"Unknown function: ..."`). -/

/-- Python `repr` of a string: single quotes unless the string contains a
single quote and no double quote; backslash escapes for the quote,
backslash and controls (ASCII approximation). -/
def pyReprStr (s : String) : String :=
  let useDouble := s.data.contains '\'' ∧ ¬ s.data.contains '"'
  let q : Char := if useDouble then '"' else '\''
  let esc := fun (c : Char) =>
    if c = '\\' then "\\\\"
    else if c = q then "\\" ++ String.singleton q
    else if c = '\n' then "\\n"
    else if c = '\r' then "\\r"
    else if c = '\t' then "\\t"
    else if c.toNat < 32 ∨ c.toNat = 127 then
      "\\x" ++ String.mk [hexDigit (c.toNat / 16), hexDigit (c.toNat % 16)]
    else String.singleton c
  String.singleton q ++ String.join (s.data.map esc) ++ String.singleton q

mutual

/-- Python `repr` of a decoded JSON value. -/
def pyRepr : JValue → String
  | .null => "None"
  | .bool true => "True"
  | .bool false => "False"
  | .num n => toString n
  | .str s => pyReprStr s
  | .arr xs => "[" ++ joinComma (pyReprList xs) ++ "]"
  | .obj fs => "\x7b" ++ joinComma (pyReprFields fs) ++ "\x7d"

def pyReprList : List JValue → List String
  | [] => []
  | v :: rest => pyRepr v :: pyReprList rest

def pyReprFields : List (String × JValue) → List String
  | [] => []
  | (k, v) :: rest => (pyReprStr k ++ ": " ++ pyRepr v) :: pyReprFields rest

end

/-- Python `str(v)` (identity on `str`, `repr` on everything else). -/
def pyStr : JValue → String
  | .str s => s
  | v => pyRepr v

/-! ### `weather_tool.py` -/

/-- `WEATHER_DATA`: city → (temperature °C, condition, humidity %, wind km/h). -/
def WEATHER_DATA : List (String × (Int × String × Int × Int)) := [
  ("seattle", (8, "Rainy", 85, 15)),
  ("new york", (12, "Partly Cloudy", 60, 20)),
  ("los angeles", (22, "Sunny", 40, 10)),
  ("london", (10, "Overcast", 75, 18)),
  ("paris", (14, "Cloudy", 65, 12)),
  ("tokyo", (16, "Clear", 55, 8)),
  ("sydney", (25, "Sunny", 50, 14)),
  ("dubai", (32, "Hot and Sunny", 30, 5)),
  ("mumbai", (28, "Humid", 80, 10)),
  ("toronto", (5, "Snowy", 70, 25)),
  ("san francisco", (15, "Foggy", 72, 16)),
  ("chicago", (7, "Windy", 55, 35)),
  ("miami", (27, "Sunny", 75, 12)),
  ("denver", (10, "Clear", 35, 8)),
  ("boston", (9, "Cloudy", 62, 18))]

/-- ASCII lowering, as `str.lower` acts on the city and condition strings
this repository uses (character-list based so that it reduces in the
kernel). -/
def asciiLowerChar (c : Char) : Char :=
  if 'A' ≤ c ∧ c ≤ 'Z' then Char.ofNat (c.toNat + 32) else c

/-- ASCII `str.lower`. -/
def asciiLower (s : String) : String :=
  String.mk (s.data.map asciiLowerChar)

/-- `celsius_to_fahrenheit`: `(celsius * 9 // 5) + 32` with Python's floor
division. -/
def celsius_to_fahrenheit (celsius : Int) : Int :=
  Int.fdiv (celsius * 9) 5 + 32

/-- Whether the `unit` argument equals the string `"fahrenheit"` under
Python `==` (false for every non-string value). -/
def isFahrenheitUnit : JValue → Bool
  | .str u => u = "fahrenheit"
  | _ => false

/-- `get_weather_for_city(city, unit)`: the weather dict for a city, from
the table when known (case-insensitive, ASCII lowering) else the default.
`unit` is kept as the raw decoded value since the source never validates
its type. -/
def get_weather_for_city (city : String) (unit : JValue) : JValue :=
  let city_lower := asciiLower city
  match assocGet city_lower WEATHER_DATA with
  | some td =>
    let temp_c := td.fst
    let condition := td.snd.fst
    let humidity := td.snd.snd.fst
    let wind_kph := td.snd.snd.snd
    let temp := if isFahrenheitUnit unit then celsius_to_fahrenheit temp_c else temp_c
    let unit_symbol := if isFahrenheitUnit unit then "°F" else "°C"
    .obj [("city", .str city),
          ("temperature", .num temp),
          ("unit", .str unit_symbol),
          ("condition", .str condition),
          ("humidity", .str (toString humidity ++ "%")),
          ("wind", .str (toString wind_kph ++ " km/h")),
          ("description", .str ("The weather in " ++ city ++ " is " ++ asciiLower condition ++
            " with a temperature of " ++ toString temp ++ unit_symbol ++
            ". Humidity is at " ++ toString humidity ++ "% with winds of " ++
            toString wind_kph ++ " km/h."))]
  | none =>
    let default_temp : Int := if isFahrenheitUnit unit then 68 else 20
    let default_unit := if isFahrenheitUnit unit then "°F" else "°C"
    .obj [("city", .str city),
          ("temperature", .num default_temp),
          ("unit", .str default_unit),
          ("condition", .str "Moderate"),
          ("humidity", .str "50%"),
          ("wind", .str "10 km/h"),
          ("description", .str ("Weather data for " ++ city ++ ": Temperature is " ++
            toString default_temp ++ default_unit ++ " with moderate conditions."))]

/-- CPython `json.loads` applied to an arbitrary runtime value: `str`
arguments are decoded, anything else raises `TypeError` with this message. -/
def pyLoadsVal : JValue → Except String JValue
  | .str s => loads s
  | v => .error ("the JSON object must be str, bytes or bytearray, not " ++ pyTypeName v)

/-- `get_weather(arguments_json)`: decode the arguments, look up the city,
serialize the weather dict; every internal failure (decode error, wrong
argument type) is caught and converted to a JSON error payload carrying
`str(e)` of the Python exception. -/
def get_weather (arguments_json : JValue) : String :=
  match pyLoadsVal arguments_json with
  | .error e => dumps (.obj [("error", .str ("Failed to get weather: " ++ e))])
  | .ok args =>
    match args with
    | .obj fields =>
      -- `city = args.get("city", "Unknown")`, `unit = args.get("unit", "celsius")`
      (match (assocGet "city" fields).getD (.str "Unknown") with
       | .str c =>
         dumps (get_weather_for_city c ((assocGet "unit" fields).getD (.str "celsius")))
       | v =>
         -- `city.lower()` raises AttributeError on a non-string city
         dumps (.obj [("error", .str ("Failed to get weather: '" ++ pyTypeName v ++
           "' object has no attribute 'lower'"))]))
    | v =>
      -- `args.get(...)` raises AttributeError on a non-dict decode result
      dumps (.obj [("error", .str ("Failed to get weather: '" ++ pyTypeName v ++
        "' object has no attribute 'get'"))])

/-- `AVAILABLE_TOOLS`: the static tool registry. -/
def AVAILABLE_TOOLS : List (String × (JValue → String)) :=
  [("get_weather", get_weather)]

/-- `execute_tool(name, arguments)`: registry dispatch.  The annotations in
the source say `str`, but Python does not enforce them and the relay passes
whatever was decoded from the frame, so both parameters are raw values; a
non-string name matches no registry key. -/
def execute_tool (name : JValue) (arguments : JValue) : String :=
  match name with
  | .str s =>
    (match assocGet s AVAILABLE_TOOLS with
     | some tool => tool arguments
     | none => dumps (.obj [("error", .str ("Unknown function: " ++ s))]))
  | _ => dumps (.obj [("error", .str ("Unknown function: " ++ pyStr name))])

/-! ### `server.py`: frame interception (voice mode, upstream→client leg) -/

/-- One WebSocket frame: a text frame carrying a string, or a binary frame
carrying bytes. -/
inductive Frame where
  | text : String → Frame
  | binary : List Nat → Frame
deriving DecidableEq

/-- `send_function_result(azure_ws, call_id, result)`: the two frames sent
upstream, in the order the source sends them — the
`conversation.item.create` correlating `call_id` to the tool output, then
the bare `response.create`. -/
def send_function_result (call_id : JValue) (result : String) : List String :=
  [dumps (.obj [("type", .str "conversation.item.create"),
                ("item", .obj [("type", .str "function_call_output"),
                               ("call_id", call_id),
                               ("output", .str result)])]),
   dumps (.obj [("type", .str "response.create")])]

/-- `try_handle_function_call(message, azure_ws, session_id)`: whether a
function call was handled, together with the frames sent upstream.  Every
failure path (decode error via `json.JSONDecodeError`, a non-dict decode
result via the blanket `except Exception` around `data.get`) returns
`False` and sends nothing. -/
def try_handle_function_call (message : String) : Bool × List String :=
  match loads message with
  | .error _ => (false, [])
  | .ok data =>
    match data with
    | .obj fields =>
      (match assocGet "type" fields with
       | some (.str t) =>
         if t = "response.function_call_arguments.done" then
           let call_id := (assocGet "call_id" fields).getD .null
           let name := (assocGet "name" fields).getD .null
           let arguments := (assocGet "arguments" fields).getD (.str "\x7b\x7d")
           if !truthy call_id || !truthy name then (false, [])
           else
             let result := execute_tool name arguments
             (true, send_function_result call_id result)
         else (false, [])
       -- `data.get("type")` returned None or a non-string: `==` with the
       -- trigger string is False either way
       | _ => (false, []))
    | _ => (false, [])

/-- One session's registry entry (`sessions[session_id]`).  The two
connection handles and the agent session are opaque runtime objects, set
at most once and never read by the verified operations; they are omitted
from the record. -/
structure Session where
  user_id : String
  mode : String
  created_at : Int
  message_count : Nat
deriving DecidableEq

/-- One iteration of `proxy_client_to_azure` (client→upstream leg): the
frame is forwarded verbatim; a text frame additionally increments the
session's `message_count` after the send; a binary frame does not. -/
def proxy_client_step (sess : Session) (frame : Frame) : Session × List Frame :=
  match frame with
  | .text _ => ({ sess with message_count := sess.message_count + 1 }, [frame])
  | .binary _ => (sess, [frame])

/-- `proxy_client_to_azure` over a whole inbound frame sequence. -/
def proxy_client_run (sess : Session) (frames : List Frame) : Session × List Frame :=
  match frames with
  | [] => (sess, [])
  | f :: rest =>
    let step := proxy_client_step sess f
    let run := proxy_client_run step.fst rest
    (run.fst, step.snd ++ run.snd)

/-- One iteration of `proxy_azure_to_client` (upstream→client leg).
Returns the session (which this leg never mutates), the frames the
interceptor sent upstream — all before the downstream forward, in source
order — and the frames forwarded to the client.  A text frame runs through
`try_handle_function_call` first and is then forwarded in either branch;
a binary frame is forwarded untouched. -/
def proxy_azure_step (sess : Session) (frame : Frame) :
    Session × List String × List Frame :=
  match frame with
  | .text message =>
    let handled := try_handle_function_call message
    if handled.fst then (sess, handled.snd, [frame])
    else (sess, handled.snd, [frame])
  | .binary _ => (sess, [], [frame])

/-! ### `server.py`: session registry and admission control -/

def MAX_CONNECTIONS_PER_USER : Nat := 3

def MAX_REQUESTS_PER_MINUTE : Nat := 60

/-- `RATE_LIMIT_WINDOW` in seconds. -/
def RATE_LIMIT_WINDOW : Int := 60

/-- The module-level mutable maps of `server.py`: `sessions`,
`user_connections` and `user_requests`, as association lists with unique
keys.  `defaultdict` semantics are recovered by `ucGet`/`reqGet` reading an
absent entry as empty. -/
structure ServerState where
  sessions : List (String × Session)
  user_connections : List (String × List String)
  user_requests : List (String × List Int)
deriving DecidableEq

/-- The maps at process start. -/
def initialState : ServerState := ⟨[], [], []⟩

/-- `user_connections[user_id]` (an absent entry reads as the empty set). -/
def ucGet (st : ServerState) (user_id : String) : List String :=
  (assocGet user_id st.user_connections).getD []

/-- `user_requests[user_id]` (an absent entry reads as the empty list). -/
def reqGet (st : ServerState) (user_id : String) : List Int :=
  (assocGet user_id st.user_requests).getD []

/-- Python `set.add` on a duplicate-free list. -/
def setAdd (x : String) (xs : List String) : List String :=
  if x ∈ xs then xs else xs ++ [x]

/-- Python `set.discard`. -/
def setDiscard (x : String) (xs : List String) : List String :=
  xs.filter (fun y => ¬ y = x)

/-- `create_session(user_id, mode)`, with the generated `uuid4` id and the
`datetime.now()` instant passed explicitly. -/
def create_session (st : ServerState) (now : Int) (session_id user_id mode : String) :
    ServerState :=
  { st with
    sessions := assocSet session_id
      { user_id := user_id, mode := mode, created_at := now, message_count := 0 }
      st.sessions,
    user_connections := assocSet user_id (setAdd session_id (ucGet st user_id))
      st.user_connections }

/-- `cleanup_session(session_id)`: a no-op unless the id is registered;
otherwise discard the id from its owner's connection set and delete the
registry entry. -/
def cleanup_session (st : ServerState) (session_id : String) : ServerState :=
  match assocGet session_id st.sessions with
  | none => st
  | some session =>
    { st with
      user_connections := assocSet session.user_id
        (setDiscard session_id (ucGet st session.user_id)) st.user_connections,
      sessions := assocDel session_id st.sessions }

/-- `check_rate_limit(user_id)`: the updated maps, the verdict, and the
reason string.  Source order: the concurrency cap is checked first (and on
that denial the function returns before touching the timestamp window);
then the window is pruned to `now - ts < RATE_LIMIT_WINDOW`; then the rate
cap is checked; on admission the current instant is appended. -/
def check_rate_limit (st : ServerState) (now : Int) (user_id : String) :
    ServerState × Bool × String :=
  if MAX_CONNECTIONS_PER_USER ≤ (ucGet st user_id).length then
    (st, false,
     "Maximum " ++ toString MAX_CONNECTIONS_PER_USER ++ " concurrent connections exceeded")
  else
    let pruned := (reqGet st user_id).filter (fun ts => now - ts < RATE_LIMIT_WINDOW)
    let st2 := { st with user_requests := assocSet user_id pruned st.user_requests }
    if MAX_REQUESTS_PER_MINUTE ≤ pruned.length then
      (st2, false,
       "Rate limit exceeded: " ++ toString MAX_REQUESTS_PER_MINUTE ++ " requests per minute")
    else
      ({ st2 with user_requests := assocSet user_id (pruned ++ [now]) st2.user_requests },
       true, "OK")

/-! ### `server.py`: authentication -/

/-- Python `str.replace` (all non-overlapping occurrences, left to right). -/
def replaceAllAux : Nat → List Char → List Char → List Char → List Char
  | 0, cs, _, _ => cs
  | Nat.succ fuel, cs, pat, repl =>
    match cs with
    | [] => []
    | c :: rest =>
      if startsWithChars pat cs then repl ++ replaceAllAux fuel (cs.drop pat.length) pat repl
      else c :: replaceAllAux fuel rest pat repl

/-- Python `s.replace(pat, repl)` for a non-empty pattern. -/
def pyReplace (s pat repl : String) : String :=
  String.mk (replaceAllAux (s.length + 1) s.data pat.data repl.data)

/-- Whitespace stripped by Python `str.strip()` (ASCII subset). -/
def isPyWs (c : Char) : Bool :=
  c = ' ' || c = '\t' || c = '\n' || c = '\r' || c = Char.ofNat 11 || c = Char.ofNat 12

/-- Python `str.strip()`. -/
def pyStrip (s : String) : String :=
  String.mk (((s.data.dropWhile isPyWs).reverse.dropWhile isPyWs).reverse)

/-- Python `s.startswith(pre)`. -/
def pyStartsWith (s pre : String) : Bool :=
  startsWithChars pre.data s.data

/-- `authenticate_user(websocket)`.  `authHeader` is the `Authorization`
header when readable (the source maps a missing `request` attribute to the
same default `''`); `freshHex` stands for the `uuid.uuid4().hex[:8]`
suffix generated in the anonymous branch. -/
def authenticate_user (authHeader : Option String) (freshHex : String) : String :=
  let auth_header := authHeader.getD ""
  if pyStartsWith auth_header "Bearer " then
    pyStrip (pyReplace auth_header "Bearer " "")
  else
    "anonymous-" ++ freshHex

/-! ### Traces of registry operations (for the registry–ledger invariant) -/

/-- A create/cleanup trace event, with the `uuid4` and `datetime.now()`
outcomes made explicit. -/
inductive SessionOp where
  | create : Int → String → String → String → SessionOp
  | cleanup : String → SessionOp
deriving DecidableEq

/-- Apply one trace event. -/
def applyOp (st : ServerState) : SessionOp → ServerState
  | .create now sid uid mode => create_session st now sid uid mode
  | .cleanup sid => cleanup_session st sid

/-- Apply a trace left to right. -/
def applyOps (st : ServerState) : List SessionOp → ServerState
  | [] => st
  | op :: rest => applyOps (applyOp st op) rest

/-- Freshness of generated ids along a trace: every `create` uses an id not
currently registered — what `uuid4` guarantees in practice. -/
def freshAlong (st : ServerState) : List SessionOp → Bool
  | [] => true
  | op :: rest =>
    (match op with
     | .create _ sid _ _ => (assocGet sid st.sessions).isNone
     | .cleanup _ => true)
    && freshAlong (applyOp st op) rest

/-- Whether a frame is a text frame (the kind whose forwarding bumps
`message_count` on the client→upstream leg). -/
def Frame.isText : Frame → Bool
  | .text _ => true
  | .binary _ => false

/-- Registry–ledger consistency: a registered session id sits in exactly
its owner's connection set (the `user_id` stored in the session), and an
unregistered id sits in no identity's connection set. -/
def RegistryLedgerInv (st : ServerState) : Prop :=
  ∀ sid : String,
    (∀ sess : Session, assocGet sid st.sessions = some sess →
      ∀ uid : String, sid ∈ ucGet st uid ↔ uid = sess.user_id) ∧
    (assocGet sid st.sessions = none → ∀ uid : String, sid ∉ ucGet st uid)

/-! ## Association-list and set lemmas -/

theorem assocGet_assocSet_self {α : Type} (k : String) (v : α) (l : List (String × α)) :
    assocGet k (assocSet k v l) = some v := by
  induction l with
  | nil => simp [assocSet, assocGet]
  | cons kv rest ih =>
    by_cases h : kv.fst = k
    · simp [assocSet, assocGet, h]
    · simp [assocSet, assocGet, h, ih]

theorem assocGet_assocSet_ne {α : Type} (k k2 : String) (v : α) (l : List (String × α))
    (h : ¬ k2 = k) : assocGet k2 (assocSet k v l) = assocGet k2 l := by
  have h2 : ¬ k = k2 := fun he => h he.symm
  induction l with
  | nil => simp [assocSet, assocGet, h2]
  | cons kv rest ih =>
    by_cases h3 : kv.fst = k
    · simp [assocSet, assocGet, h3, h2]
    · simp [assocSet, assocGet, h3, ih]

theorem assocSet_assocSet {α : Type} (k : String) (v w : α) (l : List (String × α)) :
    assocSet k v (assocSet k w l) = assocSet k v l := by
  induction l with
  | nil => simp [assocSet]
  | cons kv rest ih =>
    by_cases h : kv.fst = k
    · simp [assocSet, h]
    · simp [assocSet, h, ih]

theorem assocGet_assocDel_self {α : Type} (k : String) (l : List (String × α)) :
    assocGet k (assocDel k l) = none := by
  induction l with
  | nil => simp [assocDel, assocGet]
  | cons kv rest ih =>
    by_cases h : kv.fst = k
    · simp [assocDel, h, ih]
    · simp [assocDel, assocGet, h, ih]

theorem assocGet_assocDel_ne {α : Type} (k k2 : String) (l : List (String × α))
    (h : ¬ k2 = k) : assocGet k2 (assocDel k l) = assocGet k2 l := by
  induction l with
  | nil => simp [assocDel]
  | cons kv rest ih =>
    by_cases h2 : kv.fst = k
    · have h3 : ¬ kv.fst = k2 := by
        rw [h2]; exact fun he => h he.symm
      have h4 : ¬ k = k2 := fun he => h he.symm
      simp [assocDel, assocGet, h2, h3, h4, ih]
    · simp [assocDel, assocGet, h2, ih]

theorem mem_setAdd (x y : String) (xs : List String) :
    y ∈ setAdd x xs ↔ y ∈ xs ∨ y = x := by
  by_cases h : x ∈ xs
  · constructor
    · intro hy
      exact Or.inl (by simpa [setAdd, h] using hy)
    · rintro (hy | rfl)
      · simpa [setAdd, h] using hy
      · simp [setAdd, h]
  · simp [setAdd, h]

theorem mem_setDiscard (x y : String) (xs : List String) :
    y ∈ setDiscard x xs ↔ y ∈ xs ∧ ¬ y = x := by
  simp [setDiscard, List.mem_filter]

/-! ## Claim theorems -/

/-- C3: with the concurrency cap not yet reached, the admission check is
governed by the trailing window: when at least `MAX_REQUESTS_PER_MINUTE`
(60) of the identity's recorded timestamps lie within the trailing
`RATE_LIMIT_WINDOW` (60 s) of `now`, the check denies with reason
`"Rate limit exceeded: 60 requests per minute"` and records no new
timestamp (the window only gets pruned); with fewer than 60 in the window,
the check allows and appends the current instant. -/
theorem C3_rate_window_boundary (st : ServerState) (now : Int) (user_id : String)
    (hconc : (ucGet st user_id).length < MAX_CONNECTIONS_PER_USER) :
    (MAX_REQUESTS_PER_MINUTE ≤
        ((reqGet st user_id).filter (fun ts => now - ts < RATE_LIMIT_WINDOW)).length →
      check_rate_limit st now user_id =
        ({ st with
             user_requests := assocSet user_id
               ((reqGet st user_id).filter (fun ts => now - ts < RATE_LIMIT_WINDOW))
               st.user_requests },
         false, "Rate limit exceeded: 60 requests per minute")) ∧
    (((reqGet st user_id).filter (fun ts => now - ts < RATE_LIMIT_WINDOW)).length <
        MAX_REQUESTS_PER_MINUTE →
      check_rate_limit st now user_id =
        ({ st with
             user_requests := assocSet user_id
               ((reqGet st user_id).filter (fun ts => now - ts < RATE_LIMIT_WINDOW) ++ [now])
               st.user_requests },
         true, "OK")) := by
  have hconc2 : ¬ MAX_CONNECTIONS_PER_USER ≤ (ucGet st user_id).length :=
    Nat.not_le.mpr hconc
  constructor
  · intro hrate
    simp [check_rate_limit, hconc2, hrate]
    rfl
  · intro hrate
    have hrate2 : ¬ MAX_REQUESTS_PER_MINUTE ≤
        ((reqGet st user_id).filter (fun ts => now - ts < RATE_LIMIT_WINDOW)).length :=
      Nat.not_le.mpr hrate
    simp [check_rate_limit, hconc2, hrate2, assocSet_assocSet]

/-- Witness for `C3_rate_window_boundary`: an identity with one stale and
two fresh timestamps is admitted and the instant is recorded; sixty fresh
timestamps deny. -/
theorem C3_rate_window_boundary_witness :
    (ucGet ⟨[], [], [("u", [0, 50, 90])]⟩ "u").length < MAX_CONNECTIONS_PER_USER ∧
    check_rate_limit ⟨[], [], [("u", [0, 50, 90])]⟩ 100 "u" =
      (⟨[], [], [("u", [50, 90, 100])]⟩, true, "OK") := by
  refine ⟨by decide, ?_⟩
  have h := (C3_rate_window_boundary ⟨[], [], [("u", [0, 50, 90])]⟩ 100 "u"
    (by decide)).2 (by decide)
  simpa using h

/-- C4: an identity holding exactly `MAX_CONNECTIONS_PER_USER` (3) active
session ids is denied with reason
`"Maximum 3 concurrent connections exceeded"` (and the maps are untouched);
an identity below the cap is never denied on the concurrency ground — any
denial it receives carries the rate-window reason. -/
theorem C4_concurrency_boundary (st : ServerState) (now : Int) (user_id : String) :
    ((ucGet st user_id).length = MAX_CONNECTIONS_PER_USER →
      check_rate_limit st now user_id =
        (st, false, "Maximum 3 concurrent connections exceeded")) ∧
    ((ucGet st user_id).length < MAX_CONNECTIONS_PER_USER →
      (check_rate_limit st now user_id).snd.fst = true ∨
      (check_rate_limit st now user_id).snd.snd =
        "Rate limit exceeded: 60 requests per minute") := by
  constructor
  · intro hlen
    have h : MAX_CONNECTIONS_PER_USER ≤ (ucGet st user_id).length := Nat.le_of_eq hlen.symm
    simp [check_rate_limit, h]
    rfl
  · intro hlt
    have h : ¬ MAX_CONNECTIONS_PER_USER ≤ (ucGet st user_id).length := Nat.not_le.mpr hlt
    by_cases hrate : MAX_REQUESTS_PER_MINUTE ≤
        ((reqGet st user_id).filter (fun ts => now - ts < RATE_LIMIT_WINDOW)).length
    · right
      simp [check_rate_limit, h, hrate]
      rfl
    · left
      simp [check_rate_limit, h, hrate]

/-- Witness for `C4_concurrency_boundary`: three active sessions deny. -/
theorem C4_concurrency_boundary_witness :
    (ucGet ⟨[], [("u", ["a", "b", "c"])], []⟩ "u").length = MAX_CONNECTIONS_PER_USER ∧
    check_rate_limit ⟨[], [("u", ["a", "b", "c"])], []⟩ 7 "u" =
      (⟨[], [("u", ["a", "b", "c"])], []⟩, false,
       "Maximum 3 concurrent connections exceeded") :=
  ⟨by decide, (C4_concurrency_boundary ⟨[], [("u", ["a", "b", "c"])], []⟩ 7 "u").1 (by decide)⟩

/-- C5 counterexample: the claim says every admission check prunes the
identity's stale timestamps "regardless of which limit causes a denial",
but a concurrency-cap denial returns before the pruning statement runs.
Concretely: identity `"u"` holds 3 active sessions and one timestamp `0`
that is stale at `now = 100` (`100 - 0 ≥ RATE_LIMIT_WINDOW`); the check
denies on concurrency and the stale timestamp survives. -/
theorem C5_counterexample :
    check_rate_limit ⟨[], [("u", ["a", "b", "c"])], [("u", [0])]⟩ 100 "u" =
      (⟨[], [("u", ["a", "b", "c"])], [("u", [0])]⟩, false,
       "Maximum 3 concurrent connections exceeded") ∧
    RATE_LIMIT_WINDOW ≤ 100 - 0 ∧
    reqGet (check_rate_limit ⟨[], [("u", ["a", "b", "c"])], [("u", [0])]⟩ 100 "u").fst "u"
      = [0] := by
  refine ⟨?_, by decide, ?_⟩ <;> decide

/-- C5 (amended): every admission check that is not short-circuited by the
concurrency cap prunes the identity's window — afterwards no timestamp
`ts` with `now - ts ≥ RATE_LIMIT_WINDOW` remains and every timestamp with
`now - ts < RATE_LIMIT_WINDOW` is retained; a concurrency-cap denial
leaves all maps, the timestamp window included, untouched. -/
theorem C5_amended_pruning (st : ServerState) (now : Int) (user_id : String) :
    ((ucGet st user_id).length < MAX_CONNECTIONS_PER_USER →
      (∀ ts ∈ reqGet (check_rate_limit st now user_id).fst user_id,
        now - ts < RATE_LIMIT_WINDOW) ∧
      (∀ ts ∈ reqGet st user_id, now - ts < RATE_LIMIT_WINDOW →
        ts ∈ reqGet (check_rate_limit st now user_id).fst user_id)) ∧
    (MAX_CONNECTIONS_PER_USER ≤ (ucGet st user_id).length →
      (check_rate_limit st now user_id).fst = st) := by
  constructor
  · intro hconc
    rcases (C3_rate_window_boundary st now user_id hconc) with ⟨hdeny, hallow⟩
    by_cases hrate : MAX_REQUESTS_PER_MINUTE ≤
        ((reqGet st user_id).filter (fun ts => now - ts < RATE_LIMIT_WINDOW)).length
    · rw [hdeny hrate]
      constructor
      · intro ts hts
        simp only [reqGet, assocGet_assocSet_self, Option.getD_some] at hts
        exact of_decide_eq_true (List.mem_filter.mp hts).2
      · intro ts hts hfresh
        simp only [reqGet, assocGet_assocSet_self, Option.getD_some]
        exact List.mem_filter.mpr ⟨hts, decide_eq_true hfresh⟩
    · rw [hallow (Nat.not_le.mp hrate)]
      constructor
      · intro ts hts
        simp only [reqGet, assocGet_assocSet_self, Option.getD_some,
          List.mem_append] at hts
        rcases hts with hts | hts
        · exact of_decide_eq_true (List.mem_filter.mp hts).2
        · simp only [List.mem_singleton] at hts
          subst hts
          simp [RATE_LIMIT_WINDOW]
      · intro ts hts hfresh
        simp only [reqGet, assocGet_assocSet_self, Option.getD_some, List.mem_append]
        exact Or.inl (List.mem_filter.mpr ⟨hts, decide_eq_true hfresh⟩)
  · intro hconc
    simp [check_rate_limit, hconc]

/-- Witness for `C5_amended_pruning` at a concrete state: below the cap
the stale timestamp `0` is pruned and the fresh one kept. -/
theorem C5_amended_pruning_witness :
    (ucGet ⟨[], [], [("u", [0, 90])]⟩ "u").length < MAX_CONNECTIONS_PER_USER ∧
    (∀ ts ∈ reqGet (check_rate_limit ⟨[], [], [("u", [0, 90])]⟩ 100 "u").fst "u",
      100 - ts < RATE_LIMIT_WINDOW) :=
  ⟨by decide,
   ((C5_amended_pruning ⟨[], [], [("u", [0, 90])]⟩ 100 "u").1 (by decide)).1⟩

/-- C8: session destruction is idempotent — a second `cleanup_session` of
the same id leaves exactly the state of the first, and cleaning an id that
is not registered changes nothing at all. -/
theorem C8_cleanup_idempotent (st : ServerState) (session_id : String) :
    cleanup_session (cleanup_session st session_id) session_id =
      cleanup_session st session_id ∧
    (assocGet session_id st.sessions = none → cleanup_session st session_id = st) := by
  have noop : ∀ st2 : ServerState, assocGet session_id st2.sessions = none →
      cleanup_session st2 session_id = st2 := by
    intro st2 h
    simp [cleanup_session, h]
  refine ⟨?_, noop st⟩
  cases h : assocGet session_id st.sessions with
  | none => rw [noop st h, noop st h]
  | some sess =>
    apply noop
    simp [cleanup_session, h, assocGet_assocDel_self]

/-- Witness for `C8_cleanup_idempotent`: cleaning up an id absent from a
concrete one-session registry is a no-op. -/
theorem C8_cleanup_idempotent_witness :
    assocGet "zz" (⟨[("s1", ⟨"u", "voice", 0, 0⟩)], [("u", ["s1"])], []⟩ : ServerState).sessions
      = none ∧
    cleanup_session ⟨[("s1", ⟨"u", "voice", 0, 0⟩)], [("u", ["s1"])], []⟩ "zz" =
      ⟨[("s1", ⟨"u", "voice", 0, 0⟩)], [("u", ["s1"])], []⟩ :=
  ⟨by decide,
   (C8_cleanup_idempotent ⟨[("s1", ⟨"u", "voice", 0, 0⟩)], [("u", ["s1"])], []⟩ "zz").2
     (by decide)⟩

/-- C9 counterexample: the claim says `authenticate_user` always returns a
non-empty identity and that a `Bearer` header yields "the bearer token
that follows".  Both fail on the code: the header `"Bearer "` (empty
token) yields the empty string, and because the source strips the token
with `str.replace` — which removes every occurrence of `"Bearer "`, not
just the leading one — the header `"Bearer abc Bearer def"` yields
`"abc def"` rather than the following token `"abc Bearer def"`. -/
theorem C9_counterexample :
    authenticate_user (some "Bearer ") "deadbeef" = "" ∧
    authenticate_user (some "Bearer abc Bearer def") "deadbeef" = "abc def" := by
  constructor <;> rfl

/-- C9 (amended): `authenticate_user` never rejects — it always returns a
string.  If the `Authorization` value starts with `"Bearer "`, the
identity is the header with every occurrence of `"Bearer "` removed and
surrounding whitespace stripped (possibly the empty string, e.g. for a
whitespace-only token); for any other or absent header it is the freshly
generated identity `"anonymous-" ++ hex`, which is never empty. -/
theorem C9_amended_identity (authHeader : Option String) (freshHex : String) :
    (pyStartsWith (authHeader.getD "") "Bearer " = true →
      authenticate_user authHeader freshHex =
        pyStrip (pyReplace (authHeader.getD "") "Bearer " "")) ∧
    (pyStartsWith (authHeader.getD "") "Bearer " = false →
      authenticate_user authHeader freshHex = "anonymous-" ++ freshHex ∧
      authenticate_user authHeader freshHex ≠ "") := by
  constructor
  · intro h
    simp [authenticate_user, h]
  · intro h
    refine ⟨by simp [authenticate_user, h], ?_⟩
    simp only [authenticate_user, h, Bool.false_eq_true, if_false]
    intro hcon
    have hlen := congrArg String.length hcon
    rw [String.length_append] at hlen
    have h1 : "anonymous-".length = 10 := rfl
    have h2 : "".length = 0 := rfl
    rw [h1, h2] at hlen
    omega

/-- Witness for `C9_amended_identity`: a missing header yields an
anonymous identity. -/
theorem C9_amended_identity_witness :
    pyStartsWith ((none : Option String).getD "") "Bearer " = false ∧
    authenticate_user none "deadbeef" = "anonymous-deadbeef" :=
  ⟨by decide, ((C9_amended_identity none "deadbeef").2 (by decide)).1⟩

/-- C6: `execute_tool` totally converts every (string) name and argument
string into a JSON string — it is a Lean function, so it cannot raise, and
every branch returns `dumps` of some object: a name outside the registry
yields exactly the `Unknown function` error object, and for the registered
`get_weather` an argument string that fails to decode yields the object
whose `error` field carries the decode failure text. -/
theorem C6_execute_tool_json_total (name args : String) :
    (∃ j : JValue, execute_tool (.str name) (.str args) = dumps j) ∧
    (assocGet name AVAILABLE_TOOLS = none →
      execute_tool (.str name) (.str args) =
        dumps (.obj [("error", .str ("Unknown function: " ++ name))])) ∧
    (∀ e, loads args = .error e →
      execute_tool (.str "get_weather") (.str args) =
        dumps (.obj [("error", .str ("Failed to get weather: " ++ e))])) := by
  have hget : ∀ a : JValue, ∃ j : JValue, get_weather a = dumps j := by
    intro a
    unfold get_weather
    repeat' split
    all_goals exact ⟨_, rfl⟩
  have hred : ∀ nm ag : String, execute_tool (.str nm) (.str ag) =
      (match assocGet nm AVAILABLE_TOOLS with
       | some tool => tool (.str ag)
       | none => dumps (.obj [("error", .str ("Unknown function: " ++ nm))])) :=
    fun _ _ => rfl
  refine ⟨?_, ?_, ?_⟩
  · rw [hred]
    cases ha : assocGet name AVAILABLE_TOOLS with
    | none => exact ⟨_, rfl⟩
    | some tool =>
      have htool : tool = get_weather := by
        by_cases hn : "get_weather" = name
        · subst hn
          have hreg : assocGet "get_weather" AVAILABLE_TOOLS = some get_weather := rfl
          exact (Option.some.inj (hreg.symm.trans ha)).symm
        · have hnone : assocGet name AVAILABLE_TOOLS = none := by
            simp [AVAILABLE_TOOLS, assocGet, hn]
          rw [hnone] at ha
          exact Option.noConfusion ha
      subst htool
      exact hget (.str args)
  · intro hnone
    rw [hred, hnone]
  · intro e he
    have hreg : assocGet "get_weather" AVAILABLE_TOOLS = some get_weather := rfl
    rw [hred, hreg]
    show get_weather (.str args) = _
    unfold get_weather
    simp only [pyLoadsVal]
    rw [he]

/-- Witness for `C6_execute_tool_json_total`: the unregistered name
`"frob"` and an undecodable argument string. -/
theorem C6_execute_tool_json_total_witness :
    assocGet "frob" AVAILABLE_TOOLS = none ∧
    execute_tool (.str "frob") (.str "\x7b\x7d") =
      dumps (.obj [("error", .str ("Unknown function: " ++ "frob"))]) ∧
    loads "x" = .error "Expecting value: line 1 column 1 (char 0)" ∧
    execute_tool (.str "get_weather") (.str "x") =
      dumps (.obj [("error",
        .str ("Failed to get weather: " ++ "Expecting value: line 1 column 1 (char 0)"))]) := by
  refine ⟨rfl, ?_, rfl, ?_⟩
  · exact (C6_execute_tool_json_total "frob" "\x7b\x7d").2.1 rfl
  · exact (C6_execute_tool_json_total "get_weather" "x").2.2 _ rfl

/-- C7 counterexample: the claim says `message_count` is incremented for
every client-origin frame, text or binary.  On the code a binary audio
frame is forwarded upstream without touching the counter: at a session
with `message_count = 0` the step forwards the frame and leaves the
counter at 0, not 1. -/
theorem C7_counterexample :
    proxy_client_step ⟨"u", "voice", 0, 0⟩ (.binary [1]) =
      (⟨"u", "voice", 0, 0⟩, [.binary [1]]) ∧
    ¬ (proxy_client_step ⟨"u", "voice", 0, 0⟩ (.binary [1])).fst.message_count =
        (⟨"u", "voice", 0, 0⟩ : Session).message_count + 1 := by
  exact ⟨rfl, by decide⟩

/-- C7 (amended): on the client→upstream leg every frame is forwarded
verbatim and `message_count` grows by exactly the number of text frames —
so it is monotone and binary frames leave it unchanged — and the
upstream→client leg returns the session untouched, `message_count`
included. -/
theorem C7_amended_message_count (sess : Session) (frames : List Frame) (frame : Frame) :
    (proxy_client_run sess frames).fst.message_count =
      sess.message_count + (frames.filter Frame.isText).length ∧
    (proxy_client_run sess frames).snd = frames ∧
    (proxy_azure_step sess frame).fst = sess := by
  refine ⟨?_, ?_, ?_⟩
  · induction frames generalizing sess with
    | nil => simp [proxy_client_run]
    | cons f rest ih =>
      cases f with
      | text s =>
        simp [proxy_client_run, proxy_client_step, Frame.isText, List.filter_cons, ih]
        omega
      | binary b =>
        simp [proxy_client_run, proxy_client_step, Frame.isText, List.filter_cons, ih]
  · induction frames generalizing sess with
    | nil => simp [proxy_client_run]
    | cons f rest ih =>
      cases f with
      | text s => simp [proxy_client_run, proxy_client_step, ih]
      | binary b => simp [proxy_client_run, proxy_client_step, ih]
  · cases frame with
    | text s =>
      simp only [proxy_azure_step]
      split <;> rfl
    | binary b => rfl

/-- C1: an upstream text frame that decodes to a JSON object of type
`response.function_call_arguments.done` with non-empty string `call_id`
and `name` makes the relay inject exactly two frames upstream in this
order — the `conversation.item.create` whose `function_call_output` item
correlates `call_id` with the Tool Executor's result for
`(name, arguments)` (with `arguments` defaulting to `"\x7b\x7d"`), then the
bare `response.create` — and the original frame is still forwarded
downstream unmodified (the step function sends the upstream list before
the downstream forward, following the source's order). -/
theorem C1_function_call_interception
    (sess : Session) (message : String) (fields : List (String × JValue))
    (call_id tool_name : String)
    (hparse : loads message = .ok (.obj fields))
    (htype : assocGet "type" fields =
      some (.str "response.function_call_arguments.done"))
    (hcid : assocGet "call_id" fields = some (.str call_id))
    (hcid2 : ¬ call_id = "")
    (hname : assocGet "name" fields = some (.str tool_name))
    (hname2 : ¬ tool_name = "") :
    proxy_azure_step sess (.text message) =
      (sess,
       [dumps (.obj [("type", .str "conversation.item.create"),
                     ("item", .obj [("type", .str "function_call_output"),
                                    ("call_id", .str call_id),
                                    ("output", .str (execute_tool (.str tool_name)
                                      ((assocGet "arguments" fields).getD
                                        (.str "\x7b\x7d"))))])]),
        dumps (.obj [("type", .str "response.create")])],
       [.text message]) := by
  have hh : try_handle_function_call message =
      (true, send_function_result (.str call_id)
        (execute_tool (.str tool_name)
          ((assocGet "arguments" fields).getD (.str "\x7b\x7d")))) := by
    simp only [try_handle_function_call, hparse, htype, hcid, hname,
      Option.getD_some, truthy]
    simp [hcid2, hname2]
  simp only [proxy_azure_step, hh]
  simp [send_function_result]

set_option maxHeartbeats 2000000 in
/-- Witness for `C1_function_call_interception` at a concrete trigger
frame asking for the weather in Paris. -/
theorem C1_function_call_interception_witness :
    loads "\x7b\"type\": \"response.function_call_arguments.done\", \"call_id\": \"c1\", \"name\": \"get_weather\", \"arguments\": \"\x7b\\\"city\\\": \\\"Paris\\\"\x7d\"\x7d" =
      .ok (.obj [("type", .str "response.function_call_arguments.done"),
                 ("call_id", .str "c1"), ("name", .str "get_weather"),
                 ("arguments", .str "\x7b\"city\": \"Paris\"\x7d")]) ∧
    proxy_azure_step ⟨"u", "voice", 0, 0⟩
      (.text "\x7b\"type\": \"response.function_call_arguments.done\", \"call_id\": \"c1\", \"name\": \"get_weather\", \"arguments\": \"\x7b\\\"city\\\": \\\"Paris\\\"\x7d\"\x7d") =
      (⟨"u", "voice", 0, 0⟩,
       [dumps (.obj [("type", .str "conversation.item.create"),
                     ("item", .obj [("type", .str "function_call_output"),
                                    ("call_id", .str "c1"),
                                    ("output", .str (execute_tool (.str "get_weather")
                                      (.str "\x7b\"city\": \"Paris\"\x7d")))])]),
        dumps (.obj [("type", .str "response.create")])],
       [.text "\x7b\"type\": \"response.function_call_arguments.done\", \"call_id\": \"c1\", \"name\": \"get_weather\", \"arguments\": \"\x7b\\\"city\\\": \\\"Paris\\\"\x7d\"\x7d"]) := by
  refine ⟨rfl, ?_⟩
  exact C1_function_call_interception ⟨"u", "voice", 0, 0⟩
    "\x7b\"type\": \"response.function_call_arguments.done\", \"call_id\": \"c1\", \"name\": \"get_weather\", \"arguments\": \"\x7b\\\"city\\\": \\\"Paris\\\"\x7d\"\x7d"
    [("type", .str "response.function_call_arguments.done"),
     ("call_id", .str "c1"), ("name", .str "get_weather"),
     ("arguments", .str "\x7b\"city\": \"Paris\"\x7d")]
    "c1" "get_weather" rfl rfl rfl (by decide) rfl (by decide)

/-- C2: every upstream frame that is not a well-formed trigger passes
through — binary frames, text frames that fail to decode, decode to a
non-object, lack the trigger `type`, or carry a falsy (missing or empty)
`call_id` or `name` are forwarded to the client unchanged with nothing
injected upstream; the interceptor is a total function of the frame, so
no exception escapes it (the source catches `JSONDecodeError` and every
other exception and returns `False`). -/
theorem C2_non_trigger_passthrough (sess : Session) :
    (∀ b : List Nat, proxy_azure_step sess (.binary b) = (sess, [], [.binary b])) ∧
    (∀ message e, loads message = .error e →
      proxy_azure_step sess (.text message) = (sess, [], [.text message])) ∧
    (∀ message v, loads message = .ok v → (∀ fields, ¬ v = .obj fields) →
      proxy_azure_step sess (.text message) = (sess, [], [.text message])) ∧
    (∀ message fields, loads message = .ok (.obj fields) →
      ¬ assocGet "type" fields = some (.str "response.function_call_arguments.done") →
      proxy_azure_step sess (.text message) = (sess, [], [.text message])) ∧
    (∀ message fields, loads message = .ok (.obj fields) →
      assocGet "type" fields = some (.str "response.function_call_arguments.done") →
      (truthy ((assocGet "call_id" fields).getD .null) = false ∨
       truthy ((assocGet "name" fields).getD .null) = false) →
      proxy_azure_step sess (.text message) = (sess, [], [.text message])) := by
  have hpass : ∀ message, try_handle_function_call message = (false, []) →
      proxy_azure_step sess (.text message) = (sess, [], [.text message]) := by
    intro message hm
    simp [proxy_azure_step, hm]
  refine ⟨fun b => rfl, ?_, ?_, ?_, ?_⟩
  · intro message e h
    refine hpass message ?_
    simp only [try_handle_function_call, h]
  · intro message v hok hno
    refine hpass message ?_
    cases v with
    | null => simp only [try_handle_function_call, hok]
    | bool b => simp only [try_handle_function_call, hok]
    | num n => simp only [try_handle_function_call, hok]
    | str s2 => simp only [try_handle_function_call, hok]
    | arr xs => simp only [try_handle_function_call, hok]
    | obj fields => exact absurd rfl (hno fields)
  · intro message fields hok htype
    refine hpass message ?_
    simp only [try_handle_function_call, hok]
    cases ht : assocGet "type" fields with
    | none => rfl
    | some t =>
      cases t with
      | null => rfl
      | bool b => rfl
      | num n => rfl
      | str t2 =>
        have hne : ¬ t2 = "response.function_call_arguments.done" := by
          intro he
          exact htype (by rw [ht, he])
        simp [hne]
      | arr xs => rfl
      | obj fs => rfl
  · intro message fields hok htype hfalsy
    refine hpass message ?_
    simp only [try_handle_function_call, hok, htype]
    rcases hfalsy with h | h <;> simp [h]

/-- Witness for `C2_non_trigger_passthrough`: a non-JSON text frame and a
binary frame at a concrete session. -/
theorem C2_non_trigger_passthrough_witness :
    loads "ping" = .error "Expecting value: line 1 column 1 (char 0)" ∧
    proxy_azure_step ⟨"u", "voice", 0, 0⟩ (.text "ping") =
      (⟨"u", "voice", 0, 0⟩, [], [.text "ping"]) ∧
    proxy_azure_step ⟨"u", "voice", 0, 0⟩ (.binary [7, 8]) =
      (⟨"u", "voice", 0, 0⟩, [], [.binary [7, 8]]) :=
  ⟨rfl,
   (C2_non_trigger_passthrough ⟨"u", "voice", 0, 0⟩).2.1 "ping" _ rfl,
   (C2_non_trigger_passthrough ⟨"u", "voice", 0, 0⟩).1 [7, 8]⟩

/-! ## Registry–ledger invariant preservation (C10) -/

theorem ucGet_create (st : ServerState) (now : Int) (sid uid mode uid2 : String) :
    ucGet (create_session st now sid uid mode) uid2 =
      if uid2 = uid then setAdd sid (ucGet st uid) else ucGet st uid2 := by
  by_cases h : uid2 = uid
  · subst h
    simp [create_session, ucGet, assocGet_assocSet_self]
  · simp [create_session, ucGet, assocGet_assocSet_ne _ _ _ _ h, h]

theorem sessions_create_self (st : ServerState) (now : Int) (sid uid mode : String) :
    assocGet sid (create_session st now sid uid mode).sessions =
      some ⟨uid, mode, now, 0⟩ := by
  simp [create_session, assocGet_assocSet_self]

theorem sessions_create_ne (st : ServerState) (now : Int) (sid uid mode sid2 : String)
    (h : ¬ sid2 = sid) :
    assocGet sid2 (create_session st now sid uid mode).sessions =
      assocGet sid2 st.sessions := by
  simp [create_session, assocGet_assocSet_ne _ _ _ _ h]

theorem inv_create (st : ServerState) (now : Int) (sid uid mode : String)
    (hInv : RegistryLedgerInv st) (hfresh : assocGet sid st.sessions = none) :
    RegistryLedgerInv (create_session st now sid uid mode) := by
  intro sid2
  constructor
  · intro sess hsess uid2
    rw [ucGet_create]
    by_cases h : sid2 = sid
    · subst h
      rw [sessions_create_self] at hsess
      have hsess2 : sess = ⟨uid, mode, now, 0⟩ := (Option.some.inj hsess).symm
      subst hsess2
      by_cases h2 : uid2 = uid
      · subst h2
        simp [mem_setAdd]
      · simp only [if_neg h2]
        constructor
        · intro hmem
          exact absurd hmem ((hInv sid2).2 hfresh uid2)
        · intro he
          exact absurd he h2
    · rw [sessions_create_ne _ _ _ _ _ _ h] at hsess
      have hiff := (hInv sid2).1 sess hsess
      by_cases h2 : uid2 = uid
      · subst h2
        rw [if_pos rfl, mem_setAdd]
        constructor
        · intro hor
          rcases hor with hy | hy
          · exact (hiff uid2).mp hy
          · exact absurd hy h
        · intro he
          exact Or.inl ((hiff uid2).mpr he)
      · rw [if_neg h2]
        exact hiff uid2
  · intro hnone uid2
    rw [ucGet_create]
    by_cases h : sid2 = sid
    · subst h
      rw [sessions_create_self] at hnone
      exact Option.noConfusion hnone
    · rw [sessions_create_ne _ _ _ _ _ _ h] at hnone
      have hnot := (hInv sid2).2 hnone
      by_cases h2 : uid2 = uid
      · subst h2
        rw [if_pos rfl, mem_setAdd]
        intro hor
        rcases hor with hy | hy
        · exact hnot uid2 hy
        · exact h hy
      · rw [if_neg h2]
        exact hnot uid2

theorem cleanup_state_eq (st : ServerState) (sid : String) (sess : Session)
    (h : assocGet sid st.sessions = some sess) :
    cleanup_session st sid =
      ⟨assocDel sid st.sessions,
       assocSet sess.user_id (setDiscard sid (ucGet st sess.user_id)) st.user_connections,
       st.user_requests⟩ := by
  simp [cleanup_session, h]

theorem ucGet_cleanup (st : ServerState) (sid : String) (sess : Session) (uid2 : String)
    (h : assocGet sid st.sessions = some sess) :
    ucGet (cleanup_session st sid) uid2 =
      if uid2 = sess.user_id then setDiscard sid (ucGet st sess.user_id)
      else ucGet st uid2 := by
  rw [cleanup_state_eq st sid sess h]
  by_cases h2 : uid2 = sess.user_id
  · subst h2
    simp [ucGet, assocGet_assocSet_self]
  · simp [ucGet, assocGet_assocSet_ne _ _ _ _ h2, h2]

theorem inv_cleanup (st : ServerState) (sid : String)
    (hInv : RegistryLedgerInv st) : RegistryLedgerInv (cleanup_session st sid) := by
  cases hl : assocGet sid st.sessions with
  | none =>
    have hnoop : cleanup_session st sid = st := by
      simp [cleanup_session, hl]
    rw [hnoop]
    exact hInv
  | some sess =>
    intro sid2
    have hsessions : (cleanup_session st sid).sessions = assocDel sid st.sessions := by
      rw [cleanup_state_eq st sid sess hl]
    constructor
    · intro sess2 hsess2 uid2
      rw [hsessions] at hsess2
      by_cases h : sid2 = sid
      · subst h
        rw [assocGet_assocDel_self] at hsess2
        exact Option.noConfusion hsess2
      · rw [assocGet_assocDel_ne _ _ _ h] at hsess2
        have hiff := (hInv sid2).1 sess2 hsess2
        rw [ucGet_cleanup st sid sess uid2 hl]
        by_cases h2 : uid2 = sess.user_id
        · subst h2
          rw [if_pos rfl, mem_setDiscard]
          constructor
          · intro hmem
            exact (hiff sess.user_id).mp hmem.1
          · intro he
            exact ⟨(hiff sess.user_id).mpr he, h⟩
        · rw [if_neg h2]
          exact hiff uid2
    · intro hnone2 uid2
      rw [hsessions] at hnone2
      rw [ucGet_cleanup st sid sess uid2 hl]
      by_cases h : sid2 = sid
      · subst h
        by_cases h2 : uid2 = sess.user_id
        · rw [if_pos h2, mem_setDiscard]
          intro hmem
          exact hmem.2 rfl
        · rw [if_neg h2]
          intro hmem
          exact h2 (((hInv sid2).1 sess hl uid2).mp hmem)
      · rw [assocGet_assocDel_ne _ _ _ h] at hnone2
        have hnot := (hInv sid2).2 hnone2
        by_cases h2 : uid2 = sess.user_id
        · rw [if_pos h2, mem_setDiscard]
          intro hmem
          exact hnot sess.user_id hmem.1
        · rw [if_neg h2]
          exact hnot uid2

theorem inv_initial : RegistryLedgerInv initialState := by
  intro sid
  constructor
  · intro sess hsess
    exact Option.noConfusion hsess
  · intro _ uid
    simp [initialState, ucGet, assocGet]

theorem inv_applyOps (st : ServerState) (ops : List SessionOp)
    (hInv : RegistryLedgerInv st) (hfresh : freshAlong st ops = true) :
    RegistryLedgerInv (applyOps st ops) := by
  induction ops generalizing st with
  | nil => exact hInv
  | cons op rest ih =>
    cases op with
    | create now sid uid mode =>
      simp only [freshAlong, Bool.and_eq_true, Option.isNone_iff_eq_none] at hfresh
      exact ih _ (inv_create st now sid uid mode hInv hfresh.1) hfresh.2
    | cleanup sid =>
      simp only [freshAlong, Bool.and_eq_true] at hfresh
      exact ih _ (inv_cleanup st sid hInv) hfresh.2

/-- C10: starting from the empty registry and empty ledgers, after any
sequence of `create_session`/`cleanup_session` operations whose generated
ids are fresh (what `uuid4` provides), a session id is a registry key iff
it is a member of exactly one identity's `user_connections` set — the
`user_id` stored in that session — so the concurrency cap counts exactly
the identity's live sessions. -/
theorem C10_registry_ledger_consistency (ops : List SessionOp)
    (hfresh : freshAlong initialState ops = true) :
    RegistryLedgerInv (applyOps initialState ops) :=
  inv_applyOps initialState ops inv_initial hfresh

/-- Witness for `C10_registry_ledger_consistency` on a concrete trace:
create, destroy, create again for the same identity. -/
theorem C10_registry_ledger_consistency_witness :
    freshAlong initialState
      [.create 0 "s1" "u" "voice", .cleanup "s1", .create 1 "s2" "u" "text"] = true ∧
    RegistryLedgerInv (applyOps initialState
      [.create 0 "s1" "u" "voice", .cleanup "s1", .create 1 "s2" "u" "text"]) :=
  ⟨by decide, C10_registry_ledger_consistency _ (by decide)⟩

end VoiceChat

example : VoiceChat.dumps (.obj [("type", .str "response.create")]) =
    "\x7b\"type\": \"response.create\"\x7d" := by decide

example : VoiceChat.dumps (.obj [("a", .str "x\"y"), ("b", .arr [.num 1, .num (-2)]),
      ("c", .str "°C")]) =
    "\x7b\"a\": \"x\\\"y\", \"b\": [1, -2], \"c\": \"\\u00b0C\"\x7d" := by decide
